import Mathlib

/-!
Verification of the `mycorrhiza` classifier adapter (`src/mycorrhiza/ml/model.py`).

Shallow embedding notes.
A partition is a 2-D numeric matrix, modelled as a list of rows of integers.
Populations are a 1-D label vector, modelled as a list of integers.
Python argument values are modelled by small inductive types that record the
`isinstance` class of the value actually passed (`None`, Python `list`,
`np.ndarray`, or any other object), because the source dispatches on exactly
those classes.  Row indices are modelled as naturals (non-negative Python
indices).  Exceptions (`ValueError`, `IndexError` from numpy indexing) are
modelled with `Except`.  The wrapped sklearn classifier and the dataset
loader / `_partition` routine are external collaborators: they are modelled
from the spec's capability interfaces (see the doc comments below).
-/

namespace Mycorrhiza

/-- A partition row: one sample's derived numeric features. -/
abbrev Row := List Int

/-- A partition: 2-D numeric matrix, samples by derived features. -/
abbrev Partition := List Row

/-- Errors the adapter's methods can raise before delegation:
`ValueError` with a message (the source's two configuration errors), or a
numpy/list `IndexError` (empty `partitions[0]`, out-of-range fancy index,
mask length mismatch). -/
inductive PyError where
  | valueError (msg : String)
  | indexError
deriving Repr, DecidableEq

/-- Whether an error is one of the source's configuration `ValueError`s
(as opposed to an indexing error). -/
def PyError.isConfig : PyError → Bool
  | .valueError _ => true
  | .indexError => false

/-- The Python value passed as `partitions`: `None`, a Python `list` of
matrices, a single `np.ndarray` matrix, or any other object (all of which
fail both `isinstance` checks in the source). -/
inductive PyPartitions where
  | none
  | pyList (ps : List Partition)
  | ndarray (p : Partition)
  | other
deriving Repr, DecidableEq

/-- The Python value passed as `populations`: `None`, an `np.ndarray`
vector, a Python `list` (converted with `np.array` by the source), or any
other object. -/
inductive PyPops where
  | none
  | ndarray (v : List Int)
  | pyList (v : List Int)
  | other
deriving Repr, DecidableEq

/-- The Python value passed as `include_indices` / `exclude_indices`:
`None`, a `list`/`np.ndarray` of row indices (`valid`), or any other object
(for example a tuple or a range), which fails the source's
`isinstance(x, (np.ndarray, list))` check. -/
inductive PyIdx where
  | none
  | valid (is : List Nat)
  | other
deriving Repr, DecidableEq

/-- The external `Dataset` collaborator: sample count (`num_samples`, falsy
until loaded), per-sample population labels, and the partition matrix the
external `_partition` routine derives from it. -/
structure Dataset where
  num_samples : Nat
  populations : List Int
  derivedPartition : Partition
deriving Repr, DecidableEq

/-- Modelled from the spec: the external `Dataset.load()` is idempotent and
populates samples (`num_samples` is falsy until loaded).  The per-sample
content is already carried by the model, so loading fills in the sample
count. -/
def Dataset.load (d : Dataset) : Dataset :=
  { d with num_samples := d.populations.length }

/-- Modelled from the spec: `Model._get_partition` invokes the external
partition-generation routine `_partition(dataset, service_path, 1, 0,
n_cores)` (code not under src/) and takes element zero of the result.  The
routine's reassembly is deterministic and independent of the worker count,
so the result is modelled as the dataset's derived partition matrix. -/
def Model.getPartition (d : Dataset) (n_cores : Nat) : Partition :=
  d.derivedPartition

/-- numpy boolean-mask row selection `xs[mask]`: keeps, in order, the
entries whose mask bit is true; raises `IndexError` (here `none`) when the
mask length differs from the array length. -/
def applyMask {α : Type} (xs : List α) (mask : List Bool) : Option (List α) :=
  if xs.length = mask.length then
    some ((xs.zip mask).filterMap (fun q => if q.2 then some q.1 else none))
  else none

/-- numpy fancy indexing `xs[is]` with an integer index list: picks
`xs[i]` for each `i` in order; raises `IndexError` (here `none`) when any
index is out of range. -/
def fancyIndex {α : Type} (xs : List α) (is : List Nat) : Option (List α) :=
  is.mapM xs.get?

/-- The arguments delegated to the wrapped classifier's `fit`:
the filtered partition matrix and the filtered populations vector. -/
structure FitCall where
  partition : Partition
  populations : List Int
deriving Repr, DecidableEq

/-- Input resolution and row filtering of `Model.fit`
(src/mycorrhiza/ml/model.py, lines 103-131), up to but excluding the final
`self.clf.fit(partition, populations)`.  Mirrors the source: dataset branch
(load if `num_samples` falsy, override non-ndarray populations with
`np.array(dataset.populations)`, derive the partition), else `partitions`
branch (`partitions[0]` for a list, the matrix itself for an ndarray, else
`ValueError`), then the populations coercion/check, then include/exclude
row filtering. -/
def Model.fitCall (dataset : Option Dataset) (populations : PyPops)
    (partitions : PyPartitions) (n_cores : Nat)
    (include_indices exclude_indices : PyIdx) : Except PyError FitCall :=
  let step1 : Except PyError (PyPops × Partition) :=
    match dataset with
    | some ds =>
      let ds := if ds.num_samples = 0 then ds.load else ds
      let pops : PyPops :=
        match populations with
        | .ndarray v => .ndarray v
        | _ => .ndarray ds.populations
      .ok (pops, Model.getPartition ds n_cores)
    | none =>
      match partitions with
      | .pyList ps =>
        match ps with
        | p :: _ => .ok (populations, p)
        | [] => .error .indexError
      | .ndarray p => .ok (populations, p)
      | _ => .error (.valueError "Either dataset of partitions must be provided")
  match step1 with
  | .error err => .error err
  | .ok (pops0, partition) =>
    match (match pops0 with
           | .pyList v => Except.ok v
           | .ndarray v => Except.ok v
           | _ => Except.error (PyError.valueError "Populations must be provided") :
           Except PyError (List Int)) with
    | .error err => .error err
    | .ok pops =>
      match include_indices with
      | .valid is =>
        match fancyIndex partition is, fancyIndex pops is with
        | some part2, some pops2 => .ok ⟨part2, pops2⟩
        | _, _ => .error .indexError
      | _ =>
        match exclude_indices with
        | .valid es =>
          if es.all (· < partition.length) then
            let mask := (List.range partition.length).map (fun j => !es.contains j)
            match applyMask partition mask, applyMask pops mask with
            | some part2, some pops2 => .ok ⟨part2, pops2⟩
            | _, _ => .error .indexError
          else .error .indexError
        | _ => .ok ⟨partition, pops⟩

/-- Input resolution and row filtering of `Model.predict`
(src/mycorrhiza/ml/model.py, lines 175-212), up to but excluding the final
`self.clf.predict(partition)`: the partition matrix delegated to the
wrapped classifier. -/
def Model.predictCall (dataset : Option Dataset) (partitions : PyPartitions)
    (n_cores : Nat) (include_indices exclude_indices : PyIdx) :
    Except PyError Partition :=
  let step1 : Except PyError Partition :=
    match dataset with
    | some ds =>
      let ds := if ds.num_samples = 0 then ds.load else ds
      .ok (Model.getPartition ds n_cores)
    | none =>
      match partitions with
      | .pyList ps =>
        match ps with
        | p :: _ => .ok p
        | [] => .error .indexError
      | .ndarray p => .ok p
      | _ => .error (.valueError "Either dataset of partitions must be provided")
  match step1 with
  | .error err => .error err
  | .ok partition =>
    match include_indices with
    | .valid is =>
      match fancyIndex partition is with
      | some part2 => .ok part2
      | Option.none => .error .indexError
    | _ =>
      match exclude_indices with
      | .valid es =>
        if es.all (· < partition.length) then
          match applyMask partition
              ((List.range partition.length).map (fun j => !es.contains j)) with
          | some part2 => .ok part2
          | Option.none => .error .indexError
        else .error .indexError
      | _ => .ok partition

/-- Input resolution and row filtering of `Model.predict_proba`
(src/mycorrhiza/ml/model.py, lines 136-173), up to but excluding the final
`self.clf.predict_proba(partition)`.  The source's body is identical to
`Model.predict` up to the delegated method. -/
def Model.predict_probaCall (dataset : Option Dataset)
    (partitions : PyPartitions) (n_cores : Nat)
    (include_indices exclude_indices : PyIdx) : Except PyError Partition :=
  let step1 : Except PyError Partition :=
    match dataset with
    | some ds =>
      let ds := if ds.num_samples = 0 then ds.load else ds
      .ok (Model.getPartition ds n_cores)
    | none =>
      match partitions with
      | .pyList ps =>
        match ps with
        | p :: _ => .ok p
        | [] => .error .indexError
      | .ndarray p => .ok p
      | _ => .error (.valueError "Either dataset of partitions must be provided")
  match step1 with
  | .error err => .error err
  | .ok partition =>
    match include_indices with
    | .valid is =>
      match fancyIndex partition is with
      | some part2 => .ok part2
      | Option.none => .error .indexError
    | _ =>
      match exclude_indices with
      | .valid es =>
        if es.all (· < partition.length) then
          match applyMask partition
              ((List.range partition.length).map (fun j => !es.contains j)) with
          | some part2 => .ok part2
          | Option.none => .error .indexError
        else .error .indexError
      | _ => .ok partition

/-- The adapter (`Model` in the source): one wrapped classifier instance
plus the scratch path.  Modelled from the spec's classifier capability
interface: the wrapped classifier is an external collaborator with fitted
state `σ`, a state-mutating `fit`, and read-only `predict` /
`predict_proba` returning values of abstract types `π` and `ρ`. -/
structure Model (σ π ρ : Type) where
  clf_state : σ
  clf_fit : σ → Partition → List Int → σ
  clf_predict : σ → Partition → π
  clf_predict_proba : σ → Partition → ρ
  service_path : String

/-- `Model.fit`: resolve the inputs, then delegate
`self.clf.fit(partition, populations)` and return self (fluent style).
An exception during resolution propagates as `Except.error`. -/
def Model.fit {σ π ρ : Type} (m : Model σ π ρ) (dataset : Option Dataset)
    (populations : PyPops) (partitions : PyPartitions) (n_cores : Nat)
    (include_indices exclude_indices : PyIdx) :
    Except PyError (Model σ π ρ) :=
  match Model.fitCall dataset populations partitions n_cores
      include_indices exclude_indices with
  | .error err => .error err
  | .ok c =>
    .ok { m with clf_state := m.clf_fit m.clf_state c.partition c.populations }

/-- The adapter object as observed after a call to `fit` returns or
raises: on an exception the object is unchanged (the raise happens before
`self.clf.fit`), on success it holds the newly fitted classifier state. -/
def Model.fitState {σ π ρ : Type} (m : Model σ π ρ) (dataset : Option Dataset)
    (populations : PyPops) (partitions : PyPartitions) (n_cores : Nat)
    (include_indices exclude_indices : PyIdx) : Model σ π ρ :=
  match Model.fit m dataset populations partitions n_cores
      include_indices exclude_indices with
  | .error _ => m
  | .ok m2 => m2

/-- `Model.predict`: resolve the inputs, then return
`self.clf.predict(partition)` computed from the current fitted state. -/
def Model.predict {σ π ρ : Type} (m : Model σ π ρ) (dataset : Option Dataset)
    (partitions : PyPartitions) (n_cores : Nat)
    (include_indices exclude_indices : PyIdx) : Except PyError π :=
  match Model.predictCall dataset partitions n_cores
      include_indices exclude_indices with
  | .error err => .error err
  | .ok p => .ok (m.clf_predict m.clf_state p)

/-- `Model.predict_proba`: resolve the inputs, then return
`self.clf.predict_proba(partition)` computed from the current fitted
state. -/
def Model.predict_proba {σ π ρ : Type} (m : Model σ π ρ)
    (dataset : Option Dataset) (partitions : PyPartitions) (n_cores : Nat)
    (include_indices exclude_indices : PyIdx) : Except PyError ρ :=
  match Model.predict_probaCall dataset partitions n_cores
      include_indices exclude_indices with
  | .error err => .error err
  | .ok p => .ok (m.clf_predict_proba m.clf_state p)

/-- A call to `predict` with the adapter object it leaves behind.  The
method body performs no assignment to `self` or `self.clf`, and per the
spec's capability interface the wrapped classifier's `predict` reads the
fitted state without mutating it, so the resulting object is the one the
call started with. -/
def Model.predictRun {σ π ρ : Type} (m : Model σ π ρ)
    (dataset : Option Dataset) (partitions : PyPartitions) (n_cores : Nat)
    (include_indices exclude_indices : PyIdx) :
    Model σ π ρ × Except PyError π :=
  (m, Model.predict m dataset partitions n_cores
        include_indices exclude_indices)

/-- A call to `predict_proba` with the adapter object it leaves behind;
see `Model.predictRun`. -/
def Model.predict_probaRun {σ π ρ : Type} (m : Model σ π ρ)
    (dataset : Option Dataset) (partitions : PyPartitions) (n_cores : Nat)
    (include_indices exclude_indices : PyIdx) :
    Model σ π ρ × Except PyError ρ :=
  (m, Model.predict_proba m dataset partitions n_cores
        include_indices exclude_indices)

/-- Boolean-mask selection through a mask generated over the index range:
selecting with `xs[mask]` where `mask[j] = f j` keeps exactly the entries
whose index satisfies `f`, in their original order. -/
theorem zip_rangeMask_filterMap {α : Type} (xs : List α) (f : Nat → Bool) :
    (xs.zip ((List.range xs.length).map f)).filterMap
        (fun q => if q.2 then some q.1 else none)
      = ((List.range xs.length).filter f).filterMap xs.get? := by
  induction xs generalizing f with
  | nil => rfl
  | cons a t ih =>
    have hg : (a :: t).get? ∘ Nat.succ = t.get? := funext fun j => rfl
    by_cases hf : f 0 <;>
      (simp [List.range_succ_eq_map, List.map_map, List.filterMap_cons,
        List.filter_cons, hf, List.filter_map, List.filterMap_map];
       rw [hg]; exact ih (f ∘ Nat.succ))

/-- `applyMask` with an index-generated mask of matching length succeeds and
selects the rows whose index satisfies the mask predicate. -/
theorem applyMask_range {α : Type} (xs : List α) (m : Nat) (f : Nat → Bool)
    (h : xs.length = m) :
    applyMask xs ((List.range m).map f)
      = some (((List.range m).filter f).filterMap xs.get?) := by
  subst h
  simp [applyMask]
  exact zip_rangeMask_filterMap xs f

/-- C2: when a dataset is supplied, it takes precedence: fit, predict and
predict_proba resolve the same way whatever the `partitions` argument is
(so any supplied partitions value is ignored), and the partition actually
used is the one derived from the dataset. -/
theorem dataset_precedence :
    ∀ (d : Dataset) (pops : PyPops) (parts1 parts2 : PyPartitions) (n : Nat)
      (i e : PyIdx),
      Model.fitCall (some d) pops parts1 n i e
        = Model.fitCall (some d) pops parts2 n i e
      ∧ Model.predictCall (some d) parts1 n i e
        = Model.predictCall (some d) parts2 n i e
      ∧ Model.predict_probaCall (some d) parts1 n i e
        = Model.predict_probaCall (some d) parts2 n i e
      ∧ Model.predictCall (some d) parts1 n .none .none
        = .ok d.derivedPartition := by
  intro d pops parts1 parts2 n i e
  refine ⟨rfl, rfl, rfl, ?_⟩
  by_cases h : d.num_samples = 0 <;>
    simp [Model.predictCall, Model.getPartition, Dataset.load, h]

/-- C6: when both filters are given, include_indices takes priority and
exclude_indices has no effect, in fit, predict and predict_proba. -/
theorem include_priority :
    ∀ (d : Option Dataset) (pops : PyPops) (parts : PyPartitions) (n : Nat)
      (I E : List Nat),
      Model.fitCall d pops parts n (.valid I) (.valid E)
        = Model.fitCall d pops parts n (.valid I) .none
      ∧ Model.predictCall d parts n (.valid I) (.valid E)
        = Model.predictCall d parts n (.valid I) .none
      ∧ Model.predict_probaCall d parts n (.valid I) (.valid E)
        = Model.predict_probaCall d parts n (.valid I) .none := by
  intro d pops parts n I E
  exact ⟨rfl, rfl, rfl⟩

/-- C7: a non-empty list of partitions behaves exactly like its first
element passed directly as a single matrix, for the delegated calls of
fit, predict and predict_proba and for the resulting fitted adapter. -/
theorem list_head_equiv :
    ∀ (d : Option Dataset) (pops : PyPops) (p : Partition)
      (ps : List Partition) (n : Nat) (i e : PyIdx),
      Model.fitCall d pops (.pyList (p :: ps)) n i e
        = Model.fitCall d pops (.ndarray p) n i e
      ∧ Model.predictCall d (.pyList (p :: ps)) n i e
        = Model.predictCall d (.ndarray p) n i e
      ∧ Model.predict_probaCall d (.pyList (p :: ps)) n i e
        = Model.predict_probaCall d (.ndarray p) n i e
      ∧ ∀ (σ π ρ : Type) (m : Model σ π ρ),
          Model.fit m d pops (.pyList (p :: ps)) n i e
            = Model.fit m d pops (.ndarray p) n i e := by
  intro d pops p ps n i e
  cases d <;> exact ⟨rfl, rfl, rfl, fun σ π ρ m => rfl⟩

/-- C9: predict and predict_proba leave the adapter (and so the wrapped
classifier's fitted state) unchanged, and a second identical call yields
an identical result. -/
theorem predict_frame :
    ∀ (σ π ρ : Type) (m : Model σ π ρ) (d : Option Dataset)
      (parts : PyPartitions) (n : Nat) (i e : PyIdx),
      (Model.predictRun m d parts n i e).1 = m
      ∧ (Model.predictRun ((Model.predictRun m d parts n i e).1) d parts n i e).2
          = (Model.predictRun m d parts n i e).2
      ∧ (Model.predict_probaRun m d parts n i e).1 = m
      ∧ (Model.predict_probaRun ((Model.predict_probaRun m d parts n i e).1)
            d parts n i e).2
          = (Model.predict_probaRun m d parts n i e).2 := by
  intro σ π ρ m d parts n i e
  exact ⟨rfl, rfl, rfl, rfl⟩

/-- C10: an include or exclude filter passed with any type other than a
list or ndarray is silently ignored (the call behaves as if that filter
were None), and with both filters of such a type the full unfiltered
partition (and populations) is delegated. -/
theorem invalid_filter_ignored :
    ∀ (d : Option Dataset) (pops : PyPops) (parts : PyPartitions) (n : Nat)
      (i e : PyIdx) (p : Partition) (v : List Int),
      Model.fitCall d pops parts n .other e
        = Model.fitCall d pops parts n .none e
      ∧ Model.fitCall d pops parts n i .other
        = Model.fitCall d pops parts n i .none
      ∧ Model.predictCall d parts n .other e
        = Model.predictCall d parts n .none e
      ∧ Model.predictCall d parts n i .other
        = Model.predictCall d parts n i .none
      ∧ Model.predict_probaCall d parts n .other e
        = Model.predict_probaCall d parts n .none e
      ∧ Model.predict_probaCall d parts n i .other
        = Model.predict_probaCall d parts n i .none
      ∧ Model.fitCall Option.none (.ndarray v) (.ndarray p) n .other .other
        = .ok ⟨p, v⟩
      ∧ Model.predictCall Option.none (.ndarray p) n .other .other = .ok p
      ∧ Model.predict_probaCall Option.none (.ndarray p) n .other .other
        = .ok p := by
  intro d pops parts n i e p v
  refine ⟨rfl, ?_, rfl, ?_, rfl, ?_, rfl, rfl, rfl⟩ <;> cases i <;> rfl

/-- C1 counterexample: calling fit with no dataset, `partitions` an empty
Python list and no populations raises an `IndexError` from
`partitions[0]`, which is not one of the configuration `ValueError`s. -/
theorem fit_empty_partitions_cex :
    Model.fitCall Option.none PyPops.none (PyPartitions.pyList []) 1
        PyIdx.none PyIdx.none
      = .error .indexError
    ∧ PyError.isConfig .indexError = false := by
  exact ⟨rfl, rfl⟩

/-- C1 (amended): with no dataset and a `partitions` value that is neither
a list nor an ndarray, fit, predict and predict_proba raise the
configuration `ValueError` before any delegation; and fit raises a
configuration `ValueError` whenever no dataset is supplied and populations
is neither an ndarray nor a list, provided `partitions` is not an empty
list (an empty partitions list raises an index error instead). -/
theorem fit_config_error :
    ∀ (pops : PyPops) (parts : PyPartitions) (n : Nat) (i e : PyIdx),
      ((parts = .none ∨ parts = .other) →
        Model.fitCall Option.none pops parts n i e
          = .error (.valueError "Either dataset of partitions must be provided")
        ∧ Model.predictCall Option.none parts n i e
          = .error (.valueError "Either dataset of partitions must be provided")
        ∧ Model.predict_probaCall Option.none parts n i e
          = .error (.valueError "Either dataset of partitions must be provided"))
      ∧ ((pops = .none ∨ pops = .other) → parts ≠ .pyList [] →
        ∃ s, Model.fitCall Option.none pops parts n i e
          = .error (.valueError s)) := by
  intro pops parts n i e
  constructor
  · rintro (rfl | rfl) <;> exact ⟨rfl, rfl, rfl⟩
  · rintro (rfl | rfl) hne <;>
      (cases parts with
       | none => exact ⟨_, rfl⟩
       | other => exact ⟨_, rfl⟩
       | ndarray p => exact ⟨"Populations must be provided", rfl⟩
       | pyList ps =>
         cases ps with
         | nil => exact absurd rfl hne
         | cons p tl => exact ⟨"Populations must be provided", rfl⟩)

/-- C1 witness: concrete instances of both amended branches. -/
theorem fit_config_error_witness :
    Model.fitCall Option.none PyPops.none PyPartitions.none 1
        PyIdx.none PyIdx.none
      = .error (.valueError "Either dataset of partitions must be provided")
    ∧ ∃ s, Model.fitCall Option.none PyPops.none (PyPartitions.ndarray [[1]]) 1
        PyIdx.none PyIdx.none
      = .error (.valueError s) :=
  ⟨((fit_config_error PyPops.none PyPartitions.none 1 PyIdx.none
        PyIdx.none).1 (Or.inl rfl)).1,
   (fit_config_error PyPops.none (PyPartitions.ndarray [[1]]) 1 PyIdx.none
        PyIdx.none).2 (Or.inl rfl) (by decide)⟩

/-- C3 counterexample: with a dataset supplied and a caller-supplied
populations given as a Python list (a sequence), fit trains on the
dataset's populations, not the caller's value. -/
theorem populations_list_override_cex :
    Model.fitCall (some ⟨2, [0, 1], [[1], [2]]⟩) (PyPops.pyList [5, 6])
        PyPartitions.none 1 PyIdx.none PyIdx.none
      = .ok ⟨[[1], [2]], [0, 1]⟩
    ∧ ([0, 1] : List Int) ≠ [5, 6] := by
  exact ⟨rfl, by decide⟩

/-- C3 (amended): with a dataset supplied, a caller-supplied populations
value is used for training only when it is an ndarray; any non-ndarray
populations value (None, a list, or any other object) is replaced by the
populations derived from the dataset. -/
theorem populations_resolution :
    ∀ (d : Dataset) (v : List Int) (pops : PyPops) (parts : PyPartitions)
      (n : Nat) (i e : PyIdx),
      Model.fitCall (some d) (.ndarray v) parts n .none .none
        = .ok ⟨d.derivedPartition, v⟩
      ∧ ((pops = .none ∨ pops = .other ∨ ∃ w, pops = .pyList w) →
        Model.fitCall (some d) pops parts n i e
          = Model.fitCall (some d) (.ndarray d.populations) parts n i e) := by
  intro d v pops parts n i e
  constructor
  · by_cases h : d.num_samples = 0 <;>
      simp [Model.fitCall, Model.getPartition, Dataset.load, h]
  · rintro (rfl | rfl | ⟨w, rfl⟩) <;> by_cases h : d.num_samples = 0 <;>
      simp [Model.fitCall, Model.getPartition, Dataset.load, h]

/-- C3 witness: concrete instances of both conjuncts. -/
theorem populations_resolution_witness :
    Model.fitCall (some ⟨2, [0, 1], [[1], [2]]⟩) (PyPops.ndarray [7, 8])
        PyPartitions.none 1 PyIdx.none PyIdx.none
      = .ok ⟨[[1], [2]], [7, 8]⟩
    ∧ Model.fitCall (some ⟨2, [0, 1], [[1], [2]]⟩) (PyPops.pyList [5, 6])
        PyPartitions.none 1 PyIdx.none PyIdx.none
      = Model.fitCall (some ⟨2, [0, 1], [[1], [2]]⟩) (PyPops.ndarray [0, 1])
        PyPartitions.none 1 PyIdx.none PyIdx.none :=
  ⟨(populations_resolution ⟨2, [0, 1], [[1], [2]]⟩ [7, 8] PyPops.none
      PyPartitions.none 1 PyIdx.none PyIdx.none).1,
   (populations_resolution ⟨2, [0, 1], [[1], [2]]⟩ [] (PyPops.pyList [5, 6])
      PyPartitions.none 1 PyIdx.none PyIdx.none).2
     (Or.inr (Or.inr ⟨[5, 6], rfl⟩))⟩

/-- C4: when input resolution fails, the error is raised before any
delegation: the adapter object after a failing fit is unchanged (the
wrapped classifier's fitted state is untouched), and failing predict and
predict_proba calls propagate the error without producing a prediction. -/
theorem config_error_atomicity :
    ∀ (σ π ρ : Type) (m : Model σ π ρ) (d : Option Dataset) (pops : PyPops)
      (parts : PyPartitions) (n : Nat) (i e : PyIdx) (err : PyError),
      (Model.fitCall d pops parts n i e = .error err →
        Model.fitState m d pops parts n i e = m
        ∧ Model.fit m d pops parts n i e = .error err)
      ∧ (Model.predictCall d parts n i e = .error err →
        Model.predict m d parts n i e = (.error err : Except PyError π))
      ∧ (Model.predict_probaCall d parts n i e = .error err →
        Model.predict_proba m d parts n i e
          = (.error err : Except PyError ρ)) := by
  intro σ π ρ m d pops parts n i e err
  refine ⟨fun h => ⟨?_, ?_⟩, fun h => ?_, fun h => ?_⟩
  · simp [Model.fitState, Model.fit, h]
  · simp [Model.fit, h]
  · simp [Model.predict, h]
  · simp [Model.predict_proba, h]

/-- C4 witness: a concrete failing fit leaves a concrete adapter
unchanged. -/
theorem config_error_atomicity_witness :
    Model.fitState
        (⟨0, fun s _ _ => s + 1, fun _ _ => 0, fun _ _ => 0, "svc"⟩ :
          Model Nat Nat Nat)
        Option.none PyPops.none PyPartitions.none 1 PyIdx.none PyIdx.none
      = ⟨0, fun s _ _ => s + 1, fun _ _ => 0, fun _ _ => 0, "svc"⟩ :=
  ((config_error_atomicity Nat Nat Nat
      ⟨0, fun s _ _ => s + 1, fun _ _ => 0, fun _ _ => 0, "svc"⟩
      Option.none PyPops.none PyPartitions.none 1 PyIdx.none PyIdx.none
      (.valueError "Either dataset of partitions must be provided")).1 rfl).1

/-- C5: with only an exclude list given (all its indices in range, and for
fit a populations vector of matching length), fit, predict and
predict_proba delegate exactly the rows whose indices lie in the
complement of the exclude list over the full index range, in their
original order; fit applies the same selection to populations. -/
theorem exclude_complement :
    ∀ (p : Partition) (v : List Int) (E : List Nat) (n : Nat),
      E.all (· < p.length) = true →
      v.length = p.length →
      Model.fitCall Option.none (.ndarray v) (.ndarray p) n .none (.valid E)
        = .ok ⟨((List.range p.length).filter
                  (fun j => !E.contains j)).filterMap p.get?,
               ((List.range p.length).filter
                  (fun j => !E.contains j)).filterMap v.get?⟩
      ∧ Model.predictCall Option.none (.ndarray p) n .none (.valid E)
        = .ok (((List.range p.length).filter
                  (fun j => !E.contains j)).filterMap p.get?)
      ∧ Model.predict_probaCall Option.none (.ndarray p) n .none (.valid E)
        = .ok (((List.range p.length).filter
                  (fun j => !E.contains j)).filterMap p.get?) := by
  intro p v E n hE hv
  have h1 := applyMask_range p p.length (fun j => !decide (j ∈ E)) rfl
  have h2 := applyMask_range v p.length (fun j => !decide (j ∈ E)) hv
  refine ⟨?_, ?_, ?_⟩ <;>
    simp [Model.fitCall, Model.predictCall, Model.predict_probaCall,
      hE, h1, h2]

/-- C5 witness: excluding row 0 of a two-row partition delegates exactly
row 1 (and the matching populations entry). -/
theorem exclude_complement_witness :
    (([0] : List Nat).all (· < ([[1], [2]] : Partition).length) = true)
    ∧ ([5, 6] : List Int).length = ([[1], [2]] : Partition).length
    ∧ Model.fitCall Option.none (PyPops.ndarray [5, 6])
        (PyPartitions.ndarray [[1], [2]]) 1 PyIdx.none (PyIdx.valid [0])
      = .ok ⟨[[2]], [6]⟩ :=
  ⟨by decide, by decide,
   (exclude_complement [[1], [2]] [5, 6] [0] 1 (by decide) (by decide)).1⟩

/-- C8: filtering with include_indices delegates exactly the same matrix
(and for fit the same labels) as a call with no filter on a partition and
populations pre-sliced to those rows, in the listed order. -/
theorem include_presliced_equiv :
    ∀ (p p2 : Partition) (v v2 : List Int) (I : List Nat) (n : Nat),
      fancyIndex p I = some p2 →
      fancyIndex v I = some v2 →
      Model.fitCall Option.none (.ndarray v) (.ndarray p) n (.valid I) .none
        = Model.fitCall Option.none (.ndarray v2) (.ndarray p2) n .none .none
      ∧ Model.predictCall Option.none (.ndarray p) n (.valid I) .none
        = Model.predictCall Option.none (.ndarray p2) n .none .none
      ∧ Model.predict_probaCall Option.none (.ndarray p) n (.valid I) .none
        = Model.predict_probaCall Option.none (.ndarray p2) n .none .none := by
  intro p p2 v v2 I n hp hv
  refine ⟨?_, ?_, ?_⟩ <;>
    simp [Model.fitCall, Model.predictCall, Model.predict_probaCall, hp, hv]

/-- C8 witness: include_indices `[2, 0]` on a three-row partition equals
the call on the pre-sliced two-row partition in that order. -/
theorem include_presliced_equiv_witness :
    fancyIndex ([[1], [2], [3]] : Partition) [2, 0] = some [[3], [1]]
    ∧ fancyIndex ([7, 8, 9] : List Int) [2, 0] = some [9, 7]
    ∧ Model.fitCall Option.none (PyPops.ndarray [7, 8, 9])
        (PyPartitions.ndarray [[1], [2], [3]]) 1 (PyIdx.valid [2, 0])
        PyIdx.none
      = Model.fitCall Option.none (PyPops.ndarray [9, 7])
        (PyPartitions.ndarray [[3], [1]]) 1 PyIdx.none PyIdx.none :=
  ⟨by decide, by decide,
   (include_presliced_equiv [[1], [2], [3]] [[3], [1]] [7, 8, 9] [9, 7]
      [2, 0] 1 (by decide) (by decide)).1⟩

end Mycorrhiza
